import Mathlib

/-!
Shallow embedding of the jira-user-story service (`src/main.py` and the older
duplicate handler in `src/unnamed/part_000`, i.e. `main - Copy.py`).

The program converts conversational text into Jira-style requirements via an
external text-generation service and renders them into a Word document.
External collaborators (the OpenAI client, `json.loads`, `bytes.decode`,
python-docx reading, the HTML template) are modelled as parameters or abstract
observations; everything the repository's own code does (dispatch, defaulting,
error raising and catching, document block construction) is embedded exactly.
-/

namespace JiraStory

/-- One requirement record as read from the extractor's JSON: every field is
accessed in the source with `req.get(key, default)`, so each is optional. -/
structure Requirement where
  id : Option String
  issue_type : Option String
  summary : Option String
  description : Option String
  priority : Option String
  story_points : Option Int
  acceptance_criteria : Option (List String)
  dependencies : Option (List String)
  deriving DecidableEq, Repr

/-- The requirement-set dict: `data.get("project_key", "PROJECT")` and
`data.get("requirements", [])` in the source, so both fields are optional. -/
structure RequirementSet where
  project_key : Option String
  requirements : Option (List Requirement)
  deriving DecidableEq, Repr

/-- An abstract block of the generated Word document.  A `para` is a list of
runs, each a text together with its bold flag (`add_run(t)` / `.bold = True`).
`bullet` is `add_paragraph(t, style="List Bullet")`. -/
inductive DocItem where
  | heading (level : Nat) (text : String)
  | para (runs : List (String × Bool))
  | bullet (text : String)
  | pageBreak
  deriving DecidableEq, Repr

/-- The runs of the per-requirement metadata paragraph
(`create_word_bytes_from_requirements`, lines 157-166 of `src/main.py`). -/
def meta_runs (req : Requirement) : List (String × Bool) :=
  [("Issue Type: ", true), (req.issue_type.getD "Story", false),
   ("   |   Priority: ", true), (req.priority.getD "Medium", false)]
  ++ (match req.story_points with
      | some sp => [("   |   Story Points: ", true), (toString sp, false)]
      | none => [])

/-- The optional dependencies paragraph (`if dependencies:` — Python list
truthiness, i.e. non-emptiness — lines 168-171 of `src/main.py`). -/
def dep_block (req : Requirement) : List DocItem :=
  let dependencies := (req.dependencies).getD []
  if dependencies = [] then []
  else [DocItem.para [("Dependencies: ", true),
                      (String.intercalate ", " dependencies, false)]]

/-- The document blocks emitted for one requirement in the loop body of
`create_word_bytes_from_requirements` (lines 143-182 of `src/main.py`). -/
def render_requirement (req : Requirement) : List DocItem :=
  let req_id := (req.id).getD "REQ-?"
  let summary := (req.summary).getD ""
  let description := (req.description).getD ""
  let acceptance_criteria := (req.acceptance_criteria).getD []
  [DocItem.heading 1 (req_id ++ ": " ++ summary),
   DocItem.para (meta_runs req)]
  ++ dep_block req
  ++ [DocItem.heading 2 "Description",
      DocItem.para [(description, false)],
      DocItem.heading 2 "Acceptance Criteria"]
  ++ acceptance_criteria.map DocItem.bullet
  ++ [DocItem.pageBreak]

/-- The fixed document preamble: title heading (level 0), a blank paragraph,
the Overview heading and boilerplate paragraph, and a page break
(lines 127-140 of `src/main.py`). -/
def doc_preamble (project_key : String) : List DocItem :=
  [DocItem.heading 0 (project_key ++ " – Requirements Specification"),
   DocItem.para [],
   DocItem.heading 1 "Overview",
   DocItem.para [("This document contains auto-generated Jira-style requirements derived from raw text and conversational input.", false)],
   DocItem.pageBreak]

/-- `create_word_bytes_from_requirements` (lines 115-188 of `src/main.py`),
with the document observed as its sequence of structural blocks rather than
the serialized bytes. -/
def create_word_bytes_from_requirements (data : RequirementSet) : List DocItem :=
  doc_preamble ((data.project_key).getD "PROJECT")
  ++ (((data.requirements).getD []).map render_requirement).flatten

/-- Python's `str.strip()`: the string without leading and trailing
whitespace (modelled over the character list so it evaluates by kernel
reduction). -/
def py_strip (s : String) : String :=
  String.mk (((s.data.dropWhile Char.isWhitespace).reverse.dropWhile
    Char.isWhitespace).reverse)

/-- Python's `str.lower()` (modelled character-wise; the extensions compared
against are ASCII). -/
def py_lower (s : String) : String :=
  String.mk (s.data.map Char.toLower)

/-- Python's `str.endswith(suffix)` (modelled over the character lists so it
evaluates by kernel reduction). -/
def py_endswith (s suffix : String) : Bool :=
  suffix.data.isSuffixOf s.data

/-- A JSON value, the result type of the abstract `json.loads` collaborator. -/
inductive Json where
  | null
  | bool (b : Bool)
  | num (n : Int)
  | str (s : String)
  | arr (elements : List Json)
  | obj (fields : List (String × Json))

/-- The three failure kinds of the extractor.  In the source all three are
`ValueError`s distinguished by their message; the constructor records which
raise site fired, the argument the exact message raised. -/
inductive ExtractError where
  | configurationError (msg : String)
  | emptyResponseError (msg : String)
  | schemaError (msg : String)
  deriving DecidableEq, Repr

/-- `generate_requirements_from_text` (lines 16-109 of `src/main.py`).
`api_key` is `os.getenv("OPENAI_API_KEY")` (Python falsiness: `None` or `""`),
`json_loads` is the `json.loads` collaborator (its error value is `str(e)` of
the `JSONDecodeError`), and `output_text` is `response.output_text` from the
external service call. -/
def generate_requirements_from_text (api_key : Option String)
    (json_loads : String → Except String Json) (output_text : String) :
    Except ExtractError Json :=
  if api_key = none ∨ api_key = some "" then
    Except.error (ExtractError.configurationError
      "Missing OPENAI_API_KEY environment variable. Please set it before running this app.")
  else
    let json_text := output_text
    if json_text = "" ∨ py_strip json_text = "" then
      Except.error (ExtractError.emptyResponseError
        "The model returned an empty response. Please try again.")
    else
      match json_loads json_text with
      | Except.error e =>
        let preview := (json_text.take 200).replace "\n" " "
        Except.error (ExtractError.schemaError
          ("Model output was not valid JSON. Error: " ++ e ++ ". Output preview: " ++ preview))
      | Except.ok data => Except.ok data

/-- A Python exception as observed by the handler's `try`/`except` blocks:
either a `ValueError` (the controlled validation errors) or any other
`Exception`, each carrying `str(e)`. -/
inductive PyErr where
  | valueError (msg : String)
  | otherError (msg : String)
  deriving DecidableEq, Repr

/-- An uploaded multipart file: its `filename` and its raw bytes
(`await upload_file.read()`). -/
structure UploadFile where
  filename : String
  content : List Nat
  deriving DecidableEq, Repr

/-- The observable response of the newer POST handler: either a streaming
attachment (filename plus document blocks) or the re-rendered HTML form,
observed by the four arguments passed to `render_form_page`. -/
inductive Response where
  | attachment (filename : String) (doc : List DocItem)
  | htmlForm (conversation_text : String) (project_key : String)
      (input_mode : String) (error_message : Option String)
  deriving DecidableEq, Repr

/-- Both `StreamingResponse` and `HTMLResponse` are constructed in the source
with the framework's default status code, which is 200. -/
def Response.statusCode : Response → Nat
  | Response.attachment _ _ => 200
  | Response.htmlForm _ _ _ _ => 200

/-- Python's `s or ""` for a `str` value: the empty string is falsy. -/
def py_or_empty (s : String) : String :=
  if s = "" then "" else s

/-- Python's `s or ""` for an `Optional[str]` value. -/
def opt_or_empty : Option String → String
  | none => ""
  | some s => if s = "" then "" else s

/-- The raw-text resolution at the top of the newer `generate_word`
(lines 562-585 of `src/main.py`).  `decode_txt` is the
`bytes.decode("utf-8", errors="ignore")` collaborator; `docx_paragraphs` is
the python-docx collaborator returning the paragraph texts of a `.docx`
payload in document order (it may raise on malformed input). -/
def resolve_input (decode_txt : List Nat → String)
    (docx_paragraphs : List Nat → Except PyErr (List String))
    (conversation_text : String) (input_mode : String)
    (upload_file : Option UploadFile) : Except PyErr String :=
  if input_mode = "file" then
    match upload_file with
    | none => Except.error (PyErr.valueError
        "Please upload a .txt or .docx file when \x27Attachment\x27 is selected.")
    | some f =>
      if f.filename = "" then
        Except.error (PyErr.valueError
          "Please upload a .txt or .docx file when \x27Attachment\x27 is selected.")
      else
        let filename := py_lower f.filename
        if py_endswith filename ".txt" then
          Except.ok (decode_txt f.content)
        else if py_endswith filename ".docx" then
          match docx_paragraphs f.content with
          | Except.error e => Except.error e
          | Except.ok ps => Except.ok (String.intercalate "\n" ps)
        else
          Except.error (PyErr.valueError "Only .txt and .docx files are supported.")
  else
    let raw_text := py_strip conversation_text
    if raw_text = "" then
      Except.error (PyErr.valueError
        "Please enter some text when \x27Text\x27 is selected.")
    else
      Except.ok raw_text

/-- The `try` block of the newer `generate_word` (lines 560-606 of
`src/main.py`).  `gen` is the call to `generate_requirements_from_text`, with
its result already shaped as a `RequirementSet` (it may raise any exception,
e.g. a network failure).  The project-key override uses Python string
truthiness (`if project_key:`). -/
def generate_word_try (decode_txt : List Nat → String)
    (docx_paragraphs : List Nat → Except PyErr (List String))
    (gen : String → Except PyErr RequirementSet)
    (conversation_text : String) (project_key : String) (input_mode : String)
    (upload_file : Option UploadFile) : Except PyErr Response :=
  match resolve_input decode_txt docx_paragraphs conversation_text input_mode upload_file with
  | Except.error e => Except.error e
  | Except.ok raw_text =>
    match gen raw_text with
    | Except.error e => Except.error e
    | Except.ok data0 =>
      let data := if project_key = "" then data0
                  else { data0 with project_key := some project_key }
      let doc_bytes := create_word_bytes_from_requirements data
      let filename := ((data.project_key).getD "PROJECT") ++ "_requirements.docx"
      Except.ok (Response.attachment filename doc_bytes)

/-- The newer POST handler `generate_word` (lines 553-628 of `src/main.py`):
the `try` body together with its two `except` clauses, each re-rendering the
form with the user's original input and an error message. -/
def generate_word (decode_txt : List Nat → String)
    (docx_paragraphs : List Nat → Except PyErr (List String))
    (gen : String → Except PyErr RequirementSet)
    (conversation_text : String) (project_key : String) (input_mode : String)
    (upload_file : Option UploadFile) : Response :=
  match generate_word_try decode_txt docx_paragraphs gen conversation_text
      project_key input_mode upload_file with
  | Except.ok r => r
  | Except.error (PyErr.valueError m) =>
    Response.htmlForm conversation_text (py_or_empty project_key) input_mode (some m)
  | Except.error (PyErr.otherError m) =>
    Response.htmlForm conversation_text (py_or_empty project_key) input_mode
      (some ("Something went wrong while generating the Word file. Please try again or contact support. Details: " ++ m))

/-- The observable response of the older POST handler (`src/unnamed/part_000`,
whose `render_form_page` takes no `input_mode`). -/
inductive ResponseOld where
  | attachment (filename : String) (doc : List DocItem)
  | htmlForm (conversation_text : String) (project_key : String)
      (error_message : Option String)
  deriving DecidableEq, Repr

/-- The `try` block of the older `generate_word` (lines 285-306 of
`src/unnamed/part_000`): no input-mode dispatch, no trimming, no emptiness
check — `conversation_text` goes to the extractor as is.  `project_key` is
`Form(None)`, hence optional; `if project_key:` is truthy only for a
non-empty string. -/
def generate_word_old_try (gen : String → Except PyErr RequirementSet)
    (conversation_text : String) (project_key : Option String) :
    Except PyErr ResponseOld :=
  match gen conversation_text with
  | Except.error e => Except.error e
  | Except.ok data0 =>
    let truthy := match project_key with
                  | none => false
                  | some s => s ≠ ""
    let data := if truthy then { data0 with project_key := project_key } else data0
    let doc_bytes := create_word_bytes_from_requirements data
    let filename := ((data.project_key).getD "PROJECT") ++ "_requirements.docx"
    Except.ok (ResponseOld.attachment filename doc_bytes)

/-- The older POST handler `generate_word` (lines 284-324 of
`src/unnamed/part_000`) with its two `except` clauses. -/
def generate_word_old (gen : String → Except PyErr RequirementSet)
    (conversation_text : String) (project_key : Option String) : ResponseOld :=
  match generate_word_old_try gen conversation_text project_key with
  | Except.ok r => r
  | Except.error (PyErr.valueError m) =>
    ResponseOld.htmlForm conversation_text (opt_or_empty project_key) (some m)
  | Except.error (PyErr.otherError m) =>
    ResponseOld.htmlForm conversation_text (opt_or_empty project_key)
      (some ("Something went wrong while generating the Word file. Please try again or contact support. Details: " ++ m))

/-- A common observation of both handler versions, for comparing them: the
older form page has no `input_mode` field, so that field is dropped from the
newer handler's form responses. -/
inductive Obs where
  | attachment (filename : String) (doc : List DocItem)
  | form (conversation_text : String) (project_key : String)
      (error_message : Option String)
  deriving DecidableEq, Repr

/-- Observation of a newer-handler response. -/
def obs_new : Response → Obs
  | Response.attachment fn d => Obs.attachment fn d
  | Response.htmlForm ct pk _ err => Obs.form ct pk err

/-- Observation of an older-handler response. -/
def obs_old : ResponseOld → Obs
  | ResponseOld.attachment fn d => Obs.attachment fn d
  | ResponseOld.htmlForm ct pk err => Obs.form ct pk err

/-- Recognizes the forced page break block. -/
def is_page_break : DocItem → Bool
  | DocItem.pageBreak => true
  | _ => false

/-- Recognizes a dependencies line: a paragraph whose first run is the bold
label `"Dependencies: "`. -/
def is_dep_line : DocItem → Bool
  | DocItem.para ((s, b) :: _) => s == "Dependencies: " && b
  | _ => false

/-! ### Sample data used by witness theorems -/

/-- A sample requirement with all fields present. -/
def sample_req : Requirement :=
  { id := some "REQ-1", issue_type := some "Story",
    summary := some "Password reset via email", description := some "desc",
    priority := some "Medium", story_points := some 3,
    acceptance_criteria := some ["GIVEN a WHEN b THEN c"],
    dependencies := some ["REQ-2", "REQ-3"] }

/-- A sample requirement with the optional display fields absent. -/
def sample_req_bare : Requirement :=
  { id := some "REQ-1", issue_type := none, summary := some "S",
    description := none, priority := none, story_points := none,
    acceptance_criteria := none, dependencies := none }

/-- A sample requirement set. -/
def sample_set : RequirementSet :=
  { project_key := some "AUTH", requirements := some [sample_req] }

/-! ### Helper lemmas -/

/-- Each per-requirement block contains exactly one page break. -/
theorem countP_page_break_render (req : Requirement) :
    (render_requirement req).countP is_page_break = 1 := by
  unfold render_requirement dep_block
  cases req.story_points <;>
    simp [List.countP_append, List.countP_cons, is_page_break, List.countP_map,
      Function.comp] <;>
    split <;>
    simp [List.countP_cons, is_page_break]

/-- The flattened requirement blocks contain one page break per requirement. -/
theorem countP_page_break_flatten (reqs : List Requirement) :
    ((reqs.map render_requirement).flatten.countP is_page_break) = reqs.length := by
  induction reqs with
  | nil => rfl
  | cons r rs ih =>
    simp [List.countP_append, ih, countP_page_break_render r, Nat.add_comm]

/-- C1: the rendered document is the fixed preamble followed by the
per-requirement blocks of the input sequence in input order; that flattened
part holds exactly N page breaks for N requirements; and every requirement's
block starts with the level-1 `id: summary` heading and ends with a page
break. -/
theorem rendered_document_sections (data : RequirementSet) :
    create_word_bytes_from_requirements data
      = doc_preamble ((data.project_key).getD "PROJECT")
        ++ (((data.requirements).getD []).map render_requirement).flatten
    ∧ ((((data.requirements).getD []).map render_requirement).flatten.countP
        is_page_break) = ((data.requirements).getD []).length
    ∧ ∀ req ∈ (data.requirements).getD [],
        (render_requirement req).head?
          = some (DocItem.heading 1 (((req.id).getD "REQ-?") ++ ": " ++ (req.summary).getD ""))
        ∧ (render_requirement req).getLast? = some DocItem.pageBreak := by
  refine ⟨rfl, countP_page_break_flatten _, ?_⟩
  intro req _
  constructor
  · simp [render_requirement]
  · unfold render_requirement
    simp only [List.getLast?_concat]

/-- Witness for C1 at concrete data. -/
theorem rendered_document_sections_witness :
    create_word_bytes_from_requirements sample_set
      = doc_preamble (((sample_set).project_key).getD "PROJECT")
        ++ ((((sample_set).requirements).getD []).map render_requirement).flatten
    ∧ (((((sample_set).requirements).getD []).map render_requirement).flatten.countP
        is_page_break) = (((sample_set).requirements).getD []).length
    ∧ (render_requirement sample_req).head?
        = some (DocItem.heading 1 ((((sample_req).id).getD "REQ-?") ++ ": "
            ++ ((sample_req).summary).getD ""))
    ∧ (render_requirement sample_req).getLast? = some DocItem.pageBreak := by
  refine ⟨(rendered_document_sections sample_set).1,
          (rendered_document_sections sample_set).2.1,
          (rendered_document_sections sample_set).2.2 sample_req ?_⟩
  simp [sample_set]

/-- C7: with `story_points` absent the metadata line has no story-points
segment (it is exactly the issue-type/priority runs, and the story-points
label run does not occur in it); with `story_points` present the segment is
appended with the value's string form. -/
theorem story_points_line (req : Requirement) :
    (req.story_points = none →
      meta_runs req
        = [("Issue Type: ", true), ((req.issue_type).getD "Story", false),
           ("   |   Priority: ", true), ((req.priority).getD "Medium", false)]
      ∧ ("   |   Story Points: ", true) ∉ meta_runs req) ∧
    (∀ sp : Int, req.story_points = some sp →
      meta_runs req
        = [("Issue Type: ", true), ((req.issue_type).getD "Story", false),
           ("   |   Priority: ", true), ((req.priority).getD "Medium", false),
           ("   |   Story Points: ", true), (toString sp, false)]) := by
  constructor
  · intro h
    refine ⟨by simp [meta_runs, h], ?_⟩
    simp [meta_runs, h]
  · intro sp h
    simp [meta_runs, h]

/-- Witness for C7: one requirement with story points, one without. -/
theorem story_points_line_witness :
    ((sample_req_bare).story_points = none
      ∧ meta_runs sample_req_bare
          = [("Issue Type: ", true), (((sample_req_bare).issue_type).getD "Story", false),
             ("   |   Priority: ", true), (((sample_req_bare).priority).getD "Medium", false)]
      ∧ ("   |   Story Points: ", true) ∉ meta_runs sample_req_bare)
    ∧ ((sample_req).story_points = some 3
      ∧ meta_runs sample_req
          = [("Issue Type: ", true), (((sample_req).issue_type).getD "Story", false),
             ("   |   Priority: ", true), (((sample_req).priority).getD "Medium", false),
             ("   |   Story Points: ", true), (toString (3 : Int), false)]) := by
  have h1 := (story_points_line sample_req_bare).1 rfl
  have h2 := (story_points_line sample_req).2 3 rfl
  exact ⟨⟨rfl, h1.1, h1.2⟩, ⟨rfl, h2⟩⟩

/-- C8: with `dependencies` absent no dependencies line occurs anywhere in the
requirement's rendered block; with a non-empty list present, the block is the
single paragraph holding the comma-joined entries in original order, and it
occurs exactly once in the rendered block. -/
theorem dependencies_line (req : Requirement) :
    (req.dependencies = none →
      ∀ item ∈ render_requirement req, is_dep_line item = false) ∧
    (∀ ds : List String, req.dependencies = some ds → ds ≠ [] →
      dep_block req
        = [DocItem.para [("Dependencies: ", true), (String.intercalate ", " ds, false)]]
      ∧ (render_requirement req).countP is_dep_line = 1) := by
  constructor
  · intro h item hmem
    unfold render_requirement dep_block at hmem
    rw [h] at hmem
    simp [meta_runs] at hmem
    rcases hmem with h1 | h1 | h1 | h1 | h1 | ⟨t, _, h1⟩ | h1 <;> subst h1 <;>
      cases req.story_points <;> simp [is_dep_line]
  · intro ds h hne
    have hd : dep_block req
        = [DocItem.para [("Dependencies: ", true), (String.intercalate ", " ds, false)]] := by
      simp [dep_block, h, hne]
    refine ⟨hd, ?_⟩
    unfold render_requirement
    rw [hd]
    simp [List.countP_append, List.countP_cons, is_dep_line, List.countP_map,
      Function.comp, meta_runs]

/-- Witness for C8: the bare requirement has no dependencies line anywhere;
the full sample renders its two dependencies comma-joined. -/
theorem dependencies_line_witness :
    ((sample_req_bare).dependencies = none
      ∧ is_dep_line (DocItem.para (meta_runs sample_req_bare)) = false)
    ∧ ((sample_req).dependencies = some ["REQ-2", "REQ-3"]
      ∧ dep_block sample_req
          = [DocItem.para [("Dependencies: ", true),
              (String.intercalate ", " ["REQ-2", "REQ-3"], false)]]
      ∧ (render_requirement sample_req).countP is_dep_line = 1) := by
  have h1 := (dependencies_line sample_req_bare).1 rfl
    (DocItem.para (meta_runs sample_req_bare)) (by simp [render_requirement])
  have h2 := (dependencies_line sample_req).2 ["REQ-2", "REQ-3"] rfl (by decide)
  exact ⟨⟨rfl, h1⟩, ⟨rfl, h2.1, h2.2⟩⟩

/-- C10: a `dependencies` field present but equal to the empty list renders no
dependencies line, exactly as if the field were absent: the whole rendered
block coincides with the absent-field block. -/
theorem empty_dependencies_like_absent (req : Requirement)
    (h : req.dependencies = some []) :
    dep_block req = []
    ∧ render_requirement req = render_requirement { req with dependencies := none } := by
  constructor
  · simp [dep_block, h]
  · simp [render_requirement, dep_block, meta_runs, h]

/-- Witness for C10 at a concrete requirement. -/
theorem empty_dependencies_like_absent_witness :
    (sample_req_bare).dependencies ≠ some []
    ∧ dep_block { sample_req_bare with dependencies := some [] } = []
    ∧ render_requirement { sample_req_bare with dependencies := some [] }
        = render_requirement
            { { sample_req_bare with dependencies := some [] } with dependencies := none } := by
  have h := empty_dependencies_like_absent
    { sample_req_bare with dependencies := some [] } rfl
  exact ⟨by decide, h.1, h.2⟩

/-- The 200-character preview bound: `json_text[:200]` takes at most 200
characters. -/
theorem take_200_length_le (s : String) : (s.take 200).length ≤ 200 := by
  rw [String.take_eq]
  show (s.data.take 200).length ≤ 200
  simp [List.length_take]

/-- C2: the extractor fails with `ConfigurationError` when the credential is
absent (Python falsiness: unset or empty); with `EmptyResponseError` when the
service output is empty or whitespace-only; with `SchemaError` carrying the
parser's error and the newline-flattened, at-most-200-character prefix of the
output when parsing fails; and returns the parsed JSON value otherwise. -/
theorem extraction_error_cases (api_key : Option String)
    (json_loads : String → Except String Json) (output_text : String) :
    ((api_key = none ∨ api_key = some "") →
      generate_requirements_from_text api_key json_loads output_text
        = Except.error (ExtractError.configurationError
            "Missing OPENAI_API_KEY environment variable. Please set it before running this app.")) ∧
    (¬(api_key = none ∨ api_key = some "") → py_strip output_text = "" →
      generate_requirements_from_text api_key json_loads output_text
        = Except.error (ExtractError.emptyResponseError
            "The model returned an empty response. Please try again.")) ∧
    (¬(api_key = none ∨ api_key = some "") → py_strip output_text ≠ "" →
      ∀ e : String, json_loads output_text = Except.error e →
        generate_requirements_from_text api_key json_loads output_text
          = Except.error (ExtractError.schemaError
              ("Model output was not valid JSON. Error: " ++ e ++ ". Output preview: "
                ++ (output_text.take 200).replace "\n" " "))
        ∧ (output_text.take 200).length ≤ 200) ∧
    (¬(api_key = none ∨ api_key = some "") → py_strip output_text ≠ "" →
      ∀ j : Json, json_loads output_text = Except.ok j →
        generate_requirements_from_text api_key json_loads output_text
          = Except.ok j) := by
  have hempty : ∀ h2 : py_strip output_text ≠ "", ¬(output_text = "" ∨ py_strip output_text = "") := by
    rintro h2 (rfl | hc)
    · exact h2 (by decide)
    · exact h2 hc
  refine ⟨?_, ?_, ?_, ?_⟩
  · intro h
    unfold generate_requirements_from_text
    rw [if_pos h]
  · intro h1 h2
    unfold generate_requirements_from_text
    rw [if_neg h1, if_pos (Or.inr h2)]
  · intro h1 h2 e he
    refine ⟨?_, take_200_length_le output_text⟩
    unfold generate_requirements_from_text
    rw [if_neg h1, if_neg (hempty h2), he]
  · intro h1 h2 j hj
    unfold generate_requirements_from_text
    rw [if_neg h1, if_neg (hempty h2), hj]

/-- Witness for C2, exercising all four branches at concrete inputs. -/
theorem extraction_error_cases_witness :
    (generate_requirements_from_text none (fun _ => Except.ok Json.null) "x"
      = Except.error (ExtractError.configurationError
          "Missing OPENAI_API_KEY environment variable. Please set it before running this app."))
    ∧ (generate_requirements_from_text (some "k") (fun _ => Except.ok Json.null) "  "
      = Except.error (ExtractError.emptyResponseError
          "The model returned an empty response. Please try again."))
    ∧ (generate_requirements_from_text (some "k") (fun _ => Except.error "boom") "oops"
      = Except.error (ExtractError.schemaError
          ("Model output was not valid JSON. Error: " ++ "boom" ++ ". Output preview: "
            ++ (("oops" : String).take 200).replace "\n" " "))
      ∧ (("oops" : String).take 200).length ≤ 200)
    ∧ (generate_requirements_from_text (some "k") (fun _ => Except.ok Json.null) "oops"
      = Except.ok Json.null) := by
  refine ⟨?_, ?_, ?_, ?_⟩
  · exact (extraction_error_cases none (fun _ => Except.ok Json.null) "x").1 (Or.inl rfl)
  · exact (extraction_error_cases (some "k") (fun _ => Except.ok Json.null) "  ").2.1
      (by simp) (by decide)
  · exact (extraction_error_cases (some "k") (fun _ => Except.error "boom") "oops").2.2.1
      (by simp) (by decide) "boom" rfl
  · exact (extraction_error_cases (some "k") (fun _ => Except.ok Json.null) "oops").2.2.2
      (by simp) (by decide) Json.null rfl

/-- C5: text-mode resolution fails with the validation `ValueError` when the
text field strips to empty, and otherwise resolves to the stripped text. -/
theorem text_mode_resolution (decode_txt : List Nat → String)
    (docx_paragraphs : List Nat → Except PyErr (List String))
    (conversation_text : String) (upload_file : Option UploadFile) :
    (py_strip conversation_text = "" →
      resolve_input decode_txt docx_paragraphs conversation_text "text" upload_file
        = Except.error (PyErr.valueError
            "Please enter some text when \x27Text\x27 is selected.")) ∧
    (py_strip conversation_text ≠ "" →
      resolve_input decode_txt docx_paragraphs conversation_text "text" upload_file
        = Except.ok (py_strip conversation_text)) := by
  unfold resolve_input
  rw [if_neg (by decide : ¬("text" = "file"))]
  constructor
  · intro h
    rw [if_pos h]
  · intro h
    rw [if_neg h]

/-- Witness for C5: whitespace-only text fails, real text resolves trimmed. -/
theorem text_mode_resolution_witness :
    (py_strip "   " = ""
      ∧ resolve_input (fun _ => "") (fun _ => Except.ok []) "   " "text" none
          = Except.error (PyErr.valueError
              "Please enter some text when \x27Text\x27 is selected."))
    ∧ (py_strip "  hi  " = "hi"
      ∧ resolve_input (fun _ => "") (fun _ => Except.ok []) "  hi  " "text" none
          = Except.ok (py_strip "  hi  ")) := by
  refine ⟨⟨by decide, ?_⟩, ⟨by decide, ?_⟩⟩
  · exact (text_mode_resolution (fun _ => "") (fun _ => Except.ok []) "   " none).1
      (by decide)
  · exact (text_mode_resolution (fun _ => "") (fun _ => Except.ok []) "  hi  " none).2
      (by decide)

/-- C4: file-mode resolution fails with the validation `ValueError` with no
file or an empty filename; resolves a `.txt` upload to the lossily decoded
bytes; resolves a `.docx` upload to its paragraph texts joined by newlines in
document order; and fails with the validation `ValueError` for any other
extension.  Extension checks are on the lowercased filename, as in the
source. -/
theorem file_mode_resolution (decode_txt : List Nat → String)
    (docx_paragraphs : List Nat → Except PyErr (List String))
    (conversation_text : String) :
    (resolve_input decode_txt docx_paragraphs conversation_text "file" none
      = Except.error (PyErr.valueError
          "Please upload a .txt or .docx file when \x27Attachment\x27 is selected.")) ∧
    (∀ f : UploadFile, f.filename = "" →
      resolve_input decode_txt docx_paragraphs conversation_text "file" (some f)
        = Except.error (PyErr.valueError
            "Please upload a .txt or .docx file when \x27Attachment\x27 is selected.")) ∧
    (∀ f : UploadFile, f.filename ≠ "" →
      py_endswith (py_lower f.filename) ".txt" = true →
      resolve_input decode_txt docx_paragraphs conversation_text "file" (some f)
        = Except.ok (decode_txt f.content)) ∧
    (∀ (f : UploadFile) (ps : List String), f.filename ≠ "" →
      py_endswith (py_lower f.filename) ".txt" = false →
      py_endswith (py_lower f.filename) ".docx" = true →
      docx_paragraphs f.content = Except.ok ps →
      resolve_input decode_txt docx_paragraphs conversation_text "file" (some f)
        = Except.ok (String.intercalate "\n" ps)) ∧
    (∀ f : UploadFile, f.filename ≠ "" →
      py_endswith (py_lower f.filename) ".txt" = false →
      py_endswith (py_lower f.filename) ".docx" = false →
      resolve_input decode_txt docx_paragraphs conversation_text "file" (some f)
        = Except.error (PyErr.valueError "Only .txt and .docx files are supported.")) := by
  refine ⟨?_, ?_, ?_, ?_, ?_⟩
  · unfold resolve_input
    rw [if_pos rfl]
  · intro f hf
    unfold resolve_input
    rw [if_pos rfl]
    simp [hf]
  · intro f hf ht
    unfold resolve_input
    rw [if_pos rfl]
    simp [hf, ht]
  · intro f ps hf ht hd hp
    unfold resolve_input
    rw [if_pos rfl]
    simp [hf, ht, hd, hp]
  · intro f hf ht hd
    unfold resolve_input
    rw [if_pos rfl]
    simp [hf, ht, hd]

/-- Witness for C4, exercising the five branches at concrete uploads. -/
theorem file_mode_resolution_witness :
    (resolve_input (fun _ => "notes") (fun _ => Except.ok ["p1", "p2"]) "c" "file" none
      = Except.error (PyErr.valueError
          "Please upload a .txt or .docx file when \x27Attachment\x27 is selected."))
    ∧ (resolve_input (fun _ => "notes") (fun _ => Except.ok ["p1", "p2"]) "c" "file"
        (some { filename := "", content := [65] })
      = Except.error (PyErr.valueError
          "Please upload a .txt or .docx file when \x27Attachment\x27 is selected."))
    ∧ (resolve_input (fun _ => "notes") (fun _ => Except.ok ["p1", "p2"]) "c" "file"
        (some { filename := "Notes.TXT", content := [65] })
      = Except.ok "notes")
    ∧ (resolve_input (fun _ => "notes") (fun _ => Except.ok ["p1", "p2"]) "c" "file"
        (some { filename := "notes.docx", content := [65] })
      = Except.ok (String.intercalate "\n" ["p1", "p2"]))
    ∧ (resolve_input (fun _ => "notes") (fun _ => Except.ok ["p1", "p2"]) "c" "file"
        (some { filename := "notes.pdf", content := [65] })
      = Except.error (PyErr.valueError "Only .txt and .docx files are supported.")) := by
  refine ⟨?_, ?_, ?_, ?_, ?_⟩
  · exact (file_mode_resolution (fun _ => "notes") (fun _ => Except.ok ["p1", "p2"]) "c").1
  · exact (file_mode_resolution (fun _ => "notes") (fun _ => Except.ok ["p1", "p2"]) "c").2.1
      { filename := "", content := [65] } rfl
  · exact (file_mode_resolution (fun _ => "notes") (fun _ => Except.ok ["p1", "p2"]) "c").2.2.1
      { filename := "Notes.TXT", content := [65] } (by decide) (by decide)
  · exact (file_mode_resolution (fun _ => "notes") (fun _ => Except.ok ["p1", "p2"]) "c").2.2.2.1
      { filename := "notes.docx", content := [65] } ["p1", "p2"] (by decide) (by decide)
      (by decide) rfl
  · exact (file_mode_resolution (fun _ => "notes") (fun _ => Except.ok ["p1", "p2"]) "c").2.2.2.2
      { filename := "notes.pdf", content := [65] } (by decide) (by decide) (by decide)

/-- Every response carries the framework's default HTTP status, 200. -/
theorem statusCode_always_200 (r : Response) : Response.statusCode r = 200 := by
  cases r <;> rfl

/-- A successful `try` block always produced a streaming attachment. -/
theorem generate_word_try_ok_shape (decode_txt : List Nat → String)
    (docx_paragraphs : List Nat → Except PyErr (List String))
    (gen : String → Except PyErr RequirementSet)
    (conversation_text project_key input_mode : String)
    (upload_file : Option UploadFile) (r : Response)
    (h : generate_word_try decode_txt docx_paragraphs gen conversation_text
          project_key input_mode upload_file = Except.ok r) :
    ∃ fn d, r = Response.attachment fn d := by
  unfold generate_word_try at h
  cases hres : resolve_input decode_txt docx_paragraphs conversation_text
      input_mode upload_file with
  | error e => rw [hres] at h; exact absurd h (by simp)
  | ok raw =>
    simp only [hres] at h
    cases hgen : gen raw with
    | error e => simp [hgen] at h
    | ok data0 =>
      simp only [hgen, Except.ok.injEq] at h
      exact ⟨_, _, h.symm⟩

/-- C3: every POST outcome is either an attachment or the re-rendered form
carrying the user's original conversation text, project key and input mode
together with an error message; the status is always 200; and each kind of
raised error is converted into the corresponding form message (a `ValueError`
verbatim, anything else wrapped in the generic diagnostic). -/
theorem post_always_form_or_attachment (decode_txt : List Nat → String)
    (docx_paragraphs : List Nat → Except PyErr (List String))
    (gen : String → Except PyErr RequirementSet)
    (conversation_text project_key input_mode : String)
    (upload_file : Option UploadFile) :
    ((∃ fn d, generate_word decode_txt docx_paragraphs gen conversation_text
        project_key input_mode upload_file = Response.attachment fn d) ∨
      (∃ msg, generate_word decode_txt docx_paragraphs gen conversation_text
        project_key input_mode upload_file
          = Response.htmlForm conversation_text (py_or_empty project_key)
              input_mode (some msg)))
    ∧ Response.statusCode (generate_word decode_txt docx_paragraphs gen
        conversation_text project_key input_mode upload_file) = 200
    ∧ (∀ m, generate_word_try decode_txt docx_paragraphs gen conversation_text
          project_key input_mode upload_file = Except.error (PyErr.valueError m) →
        generate_word decode_txt docx_paragraphs gen conversation_text
          project_key input_mode upload_file
          = Response.htmlForm conversation_text (py_or_empty project_key)
              input_mode (some m))
    ∧ (∀ m, generate_word_try decode_txt docx_paragraphs gen conversation_text
          project_key input_mode upload_file = Except.error (PyErr.otherError m) →
        generate_word decode_txt docx_paragraphs gen conversation_text
          project_key input_mode upload_file
          = Response.htmlForm conversation_text (py_or_empty project_key)
              input_mode
              (some ("Something went wrong while generating the Word file. Please try again or contact support. Details: " ++ m))) := by
  refine ⟨?_, statusCode_always_200 _, ?_, ?_⟩
  · cases htry : generate_word_try decode_txt docx_paragraphs gen conversation_text
        project_key input_mode upload_file with
    | ok r =>
      obtain ⟨fn, d, rfl⟩ := generate_word_try_ok_shape decode_txt docx_paragraphs gen
        conversation_text project_key input_mode upload_file r htry
      exact Or.inl ⟨fn, d, by unfold generate_word; rw [htry]⟩
    | error e =>
      cases e with
      | valueError m => exact Or.inr ⟨m, by unfold generate_word; rw [htry]⟩
      | otherError m => exact Or.inr ⟨_, by unfold generate_word; rw [htry]⟩
  · intro m hm
    unfold generate_word
    rw [hm]
  · intro m hm
    unfold generate_word
    rw [hm]

/-- Witness for C3 at a concrete failing submission (extractor raises a
non-`ValueError` exception). -/
theorem post_always_form_or_attachment_witness :
    ((∃ fn d, generate_word (fun _ => "") (fun _ => Except.ok [])
        (fun _ => Except.error (PyErr.otherError "socket timeout")) "hi" "" "text" none
          = Response.attachment fn d) ∨
      (∃ msg, generate_word (fun _ => "") (fun _ => Except.ok [])
        (fun _ => Except.error (PyErr.otherError "socket timeout")) "hi" "" "text" none
          = Response.htmlForm "hi" (py_or_empty "") "text" (some msg)))
    ∧ Response.statusCode (generate_word (fun _ => "") (fun _ => Except.ok [])
        (fun _ => Except.error (PyErr.otherError "socket timeout")) "hi" "" "text" none) = 200
    ∧ generate_word (fun _ => "") (fun _ => Except.ok [])
        (fun _ => Except.error (PyErr.otherError "socket timeout")) "hi" "" "text" none
        = Response.htmlForm "hi" (py_or_empty "") "text"
            (some ("Something went wrong while generating the Word file. Please try again or contact support. Details: " ++ "socket timeout")) := by
  have h := post_always_form_or_attachment (fun _ => "") (fun _ => Except.ok [])
    (fun _ => Except.error (PyErr.otherError "socket timeout")) "hi" "" "text" none
  exact ⟨h.1, h.2.1, h.2.2.2 "socket timeout" rfl⟩

/-- C6: on a successful POST with a non-empty user-supplied project key, the
key replaces the extractor's inferred one before rendering, and the
attachment's filename is that key followed by `_requirements.docx`. -/
theorem project_key_override_and_filename (decode_txt : List Nat → String)
    (docx_paragraphs : List Nat → Except PyErr (List String))
    (gen : String → Except PyErr RequirementSet)
    (conversation_text project_key input_mode : String)
    (upload_file : Option UploadFile) (raw : String) (data0 : RequirementSet)
    (hres : resolve_input decode_txt docx_paragraphs conversation_text
        input_mode upload_file = Except.ok raw)
    (hgen : gen raw = Except.ok data0)
    (hpk : project_key ≠ "") :
    generate_word decode_txt docx_paragraphs gen conversation_text project_key
        input_mode upload_file
      = Response.attachment (project_key ++ "_requirements.docx")
          (create_word_bytes_from_requirements
            { data0 with project_key := some project_key }) := by
  unfold generate_word generate_word_try
  simp only [hres, hgen]
  rw [if_neg hpk]
  rfl

/-- Witness for C6 at a concrete successful submission. -/
theorem project_key_override_and_filename_witness :
    resolve_input (fun _ => "") (fun _ => Except.ok []) "hi" "text" none = Except.ok "hi"
    ∧ (fun _ : String => (Except.ok sample_set : Except PyErr RequirementSet)) "hi"
        = Except.ok sample_set
    ∧ ("AUTH2" : String) ≠ ""
    ∧ generate_word (fun _ => "") (fun _ => Except.ok [])
        (fun _ => Except.ok sample_set) "hi" "AUTH2" "text" none
      = Response.attachment ("AUTH2" ++ "_requirements.docx")
          (create_word_bytes_from_requirements
            { sample_set with project_key := some "AUTH2" }) := by
  refine ⟨?_, rfl, by decide, ?_⟩
  · exact (text_mode_resolution (fun _ => "") (fun _ => Except.ok []) "hi" none).2 (by decide)
  · exact project_key_override_and_filename (fun _ => "") (fun _ => Except.ok [])
      (fun _ => Except.ok sample_set) "hi" "AUTH2" "text" none "hi" sample_set
      ((text_mode_resolution (fun _ => "") (fun _ => Except.ok []) "hi" none).2 (by decide))
      rfl (by decide)

/-- An extractor stub used to compare the two handler versions. -/
def ce_gen : String → Except PyErr RequirementSet :=
  fun _ => Except.ok { project_key := some "K", requirements := some [] }

/-- An extractor stub whose inferred project key echoes the raw text it was
given, exposing which raw text each handler sends to the extractor. -/
def ce_gen_echo : String → Except PyErr RequirementSet :=
  fun s => Except.ok { project_key := some s, requirements := some [] }

/-- C9 counterexample: the two handlers do NOT produce the same response for
every text-mode submission.  With an empty conversation text the newer
handler rejects the submission with a validation error form while the older
one (which neither trims nor checks emptiness) calls the extractor and
returns an attachment; and with untrimmed text the older handler passes the
raw text to the extractor while the newer one passes the stripped text,
yielding different attachments. -/
theorem old_new_handlers_differ :
    (obs_old (generate_word_old ce_gen "" none)
      ≠ obs_new (generate_word (fun _ => "") (fun _ => Except.ok []) ce_gen
          "" "" "text" none))
    ∧ (obs_old (generate_word_old ce_gen_echo " X " none)
      ≠ obs_new (generate_word (fun _ => "") (fun _ => Except.ok []) ce_gen_echo
          " X " "" "text" none)) := by
  constructor
  · intro h
    simp [generate_word_old, generate_word_old_try, generate_word,
      generate_word_try, resolve_input, ce_gen, obs_old, obs_new, py_strip,
      opt_or_empty, py_or_empty] at h
  · intro h
    simp [generate_word_old, generate_word_old_try, generate_word,
      generate_word_try, resolve_input, ce_gen_echo, obs_old, obs_new, py_strip,
      opt_or_empty, py_or_empty] at h

/-- `py_or_empty` after `opt_or_empty` is idempotent: the newer handler's
`project_key or ""` agrees with the older one's. -/
theorem py_or_empty_opt_or_empty (pk : Option String) :
    py_or_empty (opt_or_empty pk) = opt_or_empty pk := by
  cases pk with
  | none => rfl
  | some s =>
    by_cases h : s = "" <;> simp [opt_or_empty, py_or_empty, h]

/-- C9 amended: for text-mode submissions whose conversation text is
non-empty and already free of leading/trailing whitespace, and with the same
extractor behaviour, the older handler's response coincides observably with
the newer handler's (the newer form page additionally carries the input mode,
which the older one does not have).  The older handler is not equivalent in
general: it skips the trimming and the emptiness validation
(`old_new_handlers_differ`). -/
theorem old_handler_matches_new_on_clean_text
    (gen : String → Except PyErr RequirementSet)
    (decode_txt : List Nat → String)
    (docx_paragraphs : List Nat → Except PyErr (List String))
    (conversation_text : String) (pk : Option String)
    (h1 : py_strip conversation_text = conversation_text)
    (h2 : conversation_text ≠ "") :
    obs_old (generate_word_old gen conversation_text pk)
      = obs_new (generate_word decode_txt docx_paragraphs gen conversation_text
          (opt_or_empty pk) "text" none) := by
  have hres : resolve_input decode_txt docx_paragraphs conversation_text "text" none
      = Except.ok conversation_text := by
    have := (text_mode_resolution decode_txt docx_paragraphs conversation_text none).2
      (by rw [h1]; exact h2)
    rw [h1] at this
    exact this
  unfold generate_word_old generate_word_old_try generate_word generate_word_try
  simp only [hres]
  cases hgen : gen conversation_text with
  | error e =>
    cases e <;> simp [obs_old, obs_new, py_or_empty_opt_or_empty]
  | ok data0 =>
    simp only []
    have hover :
        (if (match pk with | none => false | some s => decide (s ≠ "")) = true
          then { data0 with project_key := pk } else data0)
        = (if opt_or_empty pk = "" then data0
           else { data0 with project_key := some (opt_or_empty pk) }) := by
      cases pk with
      | none => simp [opt_or_empty]
      | some s =>
        by_cases h : s = "" <;> simp [opt_or_empty, h]
    rw [hover]
    simp [obs_old, obs_new]

/-- Witness for C9's amended statement at a concrete clean submission. -/
theorem old_handler_matches_new_witness :
    py_strip "hello" = "hello"
    ∧ ("hello" : String) ≠ ""
    ∧ obs_old (generate_word_old ce_gen "hello" (some "P"))
        = obs_new (generate_word (fun _ => "") (fun _ => Except.ok []) ce_gen
            "hello" (opt_or_empty (some "P")) "text" none) := by
  refine ⟨by decide, by decide, ?_⟩
  exact old_handler_matches_new_on_clean_text ce_gen (fun _ => "")
    (fun _ => Except.ok []) "hello" (some "P") (by decide) (by decide)

end JiraStory
